import Mathlib

/-!
# Verification of the paybin-js SDK core

Shallow embedding of the paybin-js client library: the request-hash engine
(MD5 over separator-free field concatenations), the HMAC-SHA256 webhook
verifier, the signing-key resolver, the response-envelope check of
`PaybinClient.post`, and the per-endpoint request builders.

Machine words are modelled as `Nat` reduced mod `2 ^ 32` (respectively
`2 ^ 64`) exactly where the JavaScript/WordArray arithmetic wraps.
-/

namespace Paybin

/-- Reduce a natural number to a 32-bit word. -/
def w32 (n : Nat) : Nat := n % 4294967296

/-- Bitwise complement on 32-bit words. -/
def wnot (n : Nat) : Nat := Nat.xor (w32 n) 4294967295

/-- Left-rotation of a 32-bit word by `s` places. -/
def rotl (x s : Nat) : Nat :=
  w32 (Nat.shiftLeft (w32 x) s + Nat.shiftRight (w32 x) (32 - s))

/-- Right-rotation of a 32-bit word by `s` places. -/
def rotr (x s : Nat) : Nat := rotl x (32 - s)

/-- The `k` little-endian bytes of `n` (least significant byte first). -/
def leBytes (k n : Nat) : List Nat :=
  (List.range k).map (fun i => n / 2 ^ (8 * i) % 256)

/-- The `k` big-endian bytes of `n` (most significant byte first). -/
def beBytes (k n : Nat) : List Nat :=
  ((List.range k).map (fun i => n / 2 ^ (8 * i) % 256)).reverse

/-- UTF-8 encoding of one character, as byte values. -/
def utf8Char (c : Char) : List Nat :=
  let n := c.toNat
  if n < 128 then [n]
  else if n < 2048 then [192 + n / 64, 128 + n % 64]
  else if n < 65536 then [224 + n / 4096, 128 + n / 64 % 64, 128 + n % 64]
  else [240 + n / 262144, 128 + n / 4096 % 64, 128 + n / 64 % 64, 128 + n % 64]

/-- UTF-8 encoding of a string, as byte values (CryptoJS parses string
inputs as UTF-8). -/
def utf8Bytes (s : String) : List Nat := s.data.flatMap utf8Char

/-- Lowercase hexadecimal digit for a value below 16. -/
def hexDigit (n : Nat) : Char := "0123456789abcdef".data.getD n '0'

/-- Two lowercase hexadecimal digits for one byte. -/
def hexByte (b : Nat) : List Char := [hexDigit (b / 16 % 16), hexDigit (b % 16)]

/-- Lowercase hexadecimal rendering of a byte list (the default
`WordArray.toString` encoding of CryptoJS). -/
def hexOfBytes (bs : List Nat) : String := String.mk (bs.flatMap hexByte)

/-! ## MD5 (RFC 1321), the digest used by all four request-hash formulas -/

/-- MD5 round constants `⌊2³² · |sin (i + 1)|⌋`. -/
def md5K : List Nat :=
  [3614090360, 3905402710, 606105819, 3250441966, 4118548399, 1200080426,
   2821735955, 4249261313, 1770035416, 2336552879, 4294925233, 2304563134,
   1804603682, 4254626195, 2792965006, 1236535329, 4129170786, 3225465664,
   643717713, 3921069994, 3593408605, 38016083, 3634488961, 3889429448,
   568446438, 3275163606, 4107603335, 1163531501, 2850285829, 4243563512,
   1735328473, 2368359562, 4294588738, 2272392833, 1839030562, 4259657740,
   2763975236, 1272893353, 4139469664, 3200236656, 681279174, 3936430074,
   3572445317, 76029189, 3654602809, 3873151461, 530742520, 3299628645,
   4096336452, 1126891415, 2878612391, 4237533241, 1700485571, 2399980690,
   4293915773, 2240044497, 1873313359, 4264355552, 2734768916, 1309151649,
   4149444226, 3174756917, 718787259, 3951481745]

/-- MD5 per-round left-rotation amounts. -/
def md5S : List Nat :=
  [7, 12, 17, 22, 7, 12, 17, 22, 7, 12, 17, 22, 7, 12, 17, 22,
   5, 9, 14, 20, 5, 9, 14, 20, 5, 9, 14, 20, 5, 9, 14, 20,
   4, 11, 16, 23, 4, 11, 16, 23, 4, 11, 16, 23, 4, 11, 16, 23,
   6, 10, 15, 21, 6, 10, 15, 21, 6, 10, 15, 21, 6, 10, 15, 21]

/-- MD5 padding: a `0x80` byte, zeros to 56 mod 64, then the original bit
length as 8 little-endian bytes. -/
def md5pad (m : List Nat) : List Nat :=
  m ++ [128] ++ List.replicate ((119 - m.length % 64) % 64) 0 ++
    leBytes 8 (m.length * 8)

/-- Split a padded message into 64-byte blocks. -/
def blocks64 (p : List Nat) : List (List Nat) :=
  (List.range (p.length / 64)).map (fun i => (p.drop (64 * i)).take 64)

/-- Little-endian 32-bit message word `g` of a 64-byte block. -/
def mWord (blk : List Nat) (g : Nat) : Nat :=
  blk.getD (4 * g) 0 + 256 * blk.getD (4 * g + 1) 0 +
    65536 * blk.getD (4 * g + 2) 0 + 16777216 * blk.getD (4 * g + 3) 0

/-- One MD5 round: state `(a, b, c, d)`, round index `i`. -/
def md5round (blk : List Nat) (st : Nat × Nat × Nat × Nat) (i : Nat) :
    Nat × Nat × Nat × Nat :=
  let a := st.1
  let b := st.2.1
  let c := st.2.2.1
  let d := st.2.2.2
  let f :=
    if i < 16 then Nat.lor (Nat.land b c) (Nat.land (wnot b) d)
    else if i < 32 then Nat.lor (Nat.land d b) (Nat.land (wnot d) c)
    else if i < 48 then Nat.xor (Nat.xor b c) d
    else Nat.xor c (Nat.lor b (wnot d))
  let g :=
    if i < 16 then i
    else if i < 32 then (5 * i + 1) % 16
    else if i < 48 then (3 * i + 5) % 16
    else 7 * i % 16
  let t := w32 (f + a + md5K.getD i 0 + mWord blk g)
  (d, w32 (b + rotl t (md5S.getD i 0)), b, c)

/-- Process one 64-byte block into the running MD5 state. -/
def md5block (st : Nat × Nat × Nat × Nat) (blk : List Nat) :
    Nat × Nat × Nat × Nat :=
  let r := (List.range 64).foldl (md5round blk) st
  (w32 (st.1 + r.1), w32 (st.2.1 + r.2.1), w32 (st.2.2.1 + r.2.2.1),
   w32 (st.2.2.2 + r.2.2.2))

/-- Final MD5 state over a byte message. -/
def md5final (m : List Nat) : Nat × Nat × Nat × Nat :=
  (blocks64 (md5pad m)).foldl md5block (1732584193, 4023233417, 2562383102, 271733878)

/-- MD5 digest of a byte message, as 16 bytes. -/
def md5bytes (m : List Nat) : List Nat :=
  leBytes 4 (md5final m).1 ++ leBytes 4 (md5final m).2.1 ++
    leBytes 4 (md5final m).2.2.1 ++ leBytes 4 (md5final m).2.2.2

/-- Model of `CryptoJS.MD5(s).toString()`: MD5 of the UTF-8 bytes of `s`, rendered
as lowercase hexadecimal. -/
def md5Hex (s : String) : String := hexOfBytes (md5bytes (utf8Bytes s))

/-! ## SHA-256 (FIPS 180-4), underlying the HMAC webhook signatures -/

/-- SHA-256 round constants (fractional parts of cube roots of the first
64 primes). -/
def shaK : List Nat :=
  [1116352408, 1899447441, 3049323471, 3921009573, 961987163, 1508970993,
   2453635748, 2870763221, 3624381080, 310598401, 607225278, 1426881987,
   1925078388, 2162078206, 2614888103, 3248222580, 3835390401, 4022224774,
   264347078, 604807628, 770255983, 1249150122, 1555081692, 1996064986,
   2554220882, 2821834349, 2952996808, 3210313671, 3336571891, 3584528711,
   113926993, 338241895, 666307205, 773529912, 1294757372, 1396182291,
   1695183700, 1986661051, 2177026350, 2456956037, 2730485921, 2820302411,
   3259730800, 3345764771, 3516065817, 3600352804, 4094571909, 275423344,
   430227734, 506948616, 659060556, 883997877, 958139571, 1322822218,
   1537002063, 1747873779, 1955562222, 2024104815, 2227730452, 2361852424,
   2428436474, 2756734187, 3204031479, 3329325298]

/-- SHA-256 padding: a `0x80` byte, zeros to 56 mod 64, then the original
bit length as 8 big-endian bytes. -/
def shaPad (m : List Nat) : List Nat :=
  m ++ [128] ++ List.replicate ((119 - m.length % 64) % 64) 0 ++
    beBytes 8 (m.length * 8)

/-- Big-endian 32-bit message word `i` of a 64-byte block. -/
def beWord (blk : List Nat) (i : Nat) : Nat :=
  16777216 * blk.getD (4 * i) 0 + 65536 * blk.getD (4 * i + 1) 0 +
    256 * blk.getD (4 * i + 2) 0 + blk.getD (4 * i + 3) 0

/-- SHA-256 small sigma 0. -/
def ssig0 (x : Nat) : Nat :=
  Nat.xor (Nat.xor (rotr x 7) (rotr x 18)) (Nat.shiftRight (w32 x) 3)

/-- SHA-256 small sigma 1. -/
def ssig1 (x : Nat) : Nat :=
  Nat.xor (Nat.xor (rotr x 17) (rotr x 19)) (Nat.shiftRight (w32 x) 10)

/-- The 64-entry SHA-256 message schedule of one block. -/
def shaSchedule (blk : List Nat) : List Nat :=
  (List.range 64).foldl
    (fun ws i =>
      if i < 16 then ws ++ [beWord blk i]
      else
        ws ++ [w32 (ws.getD (i - 16) 0 + ssig0 (ws.getD (i - 15) 0) +
          ws.getD (i - 7) 0 + ssig1 (ws.getD (i - 2) 0))])
    []

/-- Working state of the SHA-256 compression function. -/
structure ShaState where
  a : Nat
  b : Nat
  c : Nat
  d : Nat
  e : Nat
  f : Nat
  g : Nat
  hh : Nat
deriving DecidableEq

/-- One SHA-256 compression round. -/
def shaRound (ws : List Nat) (st : ShaState) (i : Nat) : ShaState :=
  let s1 := Nat.xor (Nat.xor (rotr st.e 6) (rotr st.e 11)) (rotr st.e 25)
  let ch := Nat.xor (Nat.land st.e st.f) (Nat.land (wnot st.e) st.g)
  let t1 := w32 (st.hh + s1 + ch + shaK.getD i 0 + ws.getD i 0)
  let s0 := Nat.xor (Nat.xor (rotr st.a 2) (rotr st.a 13)) (rotr st.a 22)
  let mj := Nat.xor (Nat.xor (Nat.land st.a st.b) (Nat.land st.a st.c))
    (Nat.land st.b st.c)
  let t2 := w32 (s0 + mj)
  ⟨w32 (t1 + t2), st.a, st.b, st.c, w32 (st.d + t1), st.e, st.f, st.g⟩

/-- Process one 64-byte block into the running SHA-256 state. -/
def shaBlock (st : ShaState) (blk : List Nat) : ShaState :=
  let r := (List.range 64).foldl (shaRound (shaSchedule blk)) st
  ⟨w32 (st.a + r.a), w32 (st.b + r.b), w32 (st.c + r.c), w32 (st.d + r.d),
   w32 (st.e + r.e), w32 (st.f + r.f), w32 (st.g + r.g), w32 (st.hh + r.hh)⟩

/-- Initial SHA-256 state (fractional parts of square roots of the first
8 primes). -/
def shaInit : ShaState :=
  ⟨1779033703, 3144134277, 1013904242, 2773480762, 1359893119, 2600822924,
   528734635, 1541459225⟩

/-- Final SHA-256 state over a byte message. -/
def shaFinal (m : List Nat) : ShaState :=
  (blocks64 (shaPad m)).foldl shaBlock shaInit

/-- SHA-256 digest of a byte message, as 32 bytes. -/
def sha256bytes (m : List Nat) : List Nat :=
  beBytes 4 (shaFinal m).a ++ beBytes 4 (shaFinal m).b ++
    beBytes 4 (shaFinal m).c ++ beBytes 4 (shaFinal m).d ++
    beBytes 4 (shaFinal m).e ++ beBytes 4 (shaFinal m).f ++
    beBytes 4 (shaFinal m).g ++ beBytes 4 (shaFinal m).hh

/-! ## HMAC-SHA256 (RFC 2104), as computed by `CryptoJS.HmacSHA256` -/

/-- HMAC key preparation: keys longer than the 64-byte block are hashed,
then the key is zero-padded to 64 bytes. -/
def hmacKey (key : List Nat) : List Nat :=
  let k0 := if 64 < key.length then sha256bytes key else key
  k0 ++ List.replicate (64 - k0.length) 0

/-- HMAC-SHA256 of a byte message under a byte key. -/
def hmacSha256 (key msg : List Nat) : List Nat :=
  let k := hmacKey key
  sha256bytes (k.map (fun b => Nat.xor b 92) ++
    sha256bytes (k.map (fun b => Nat.xor b 54) ++ msg))

/-- Model of `CryptoJS.HmacSHA256(payload, secretKey).toString()`: HMAC-SHA256 over
the UTF-8 bytes of the payload keyed by the UTF-8 bytes of the secret,
rendered as lowercase hexadecimal. -/
def hmacSha256Hex (payload secretKey : String) : String :=
  hexOfBytes (hmacSha256 (utf8Bytes secretKey) (utf8Bytes payload))

/-! ## JavaScript value modelling -/

/-- A JavaScript number as the SDK callers supply it: a finite decimal
`mantissa / 10 ^ scale`.

Modelled from the spec: `Number.prototype.toString` (the radix-10
shortest-round-trip rendering of ECMA-262) is not part of this repository;
per the spec, numbers are rendered "via decimal notation, no thousands
separators, no fixed precision padding", which on a normalized finite
decimal is exactly the rendering below. -/
structure JsDecimal where
  mantissa : Int
  scale : Nat
deriving DecidableEq

/-- Left-pad a string with zeros to length `k`. -/
def padZeros (s : String) (k : Nat) : String :=
  String.mk (List.replicate (k - s.length) (Char.ofNat 48)) ++ s

/-- Decimal rendering of a `JsDecimal`, with no padding and no separators
(`⟨1, 1⟩` renders as `"0.1"`, `⟨100, 0⟩` as `"100"`). -/
def jsNumToString (d : JsDecimal) : String :=
  if d.scale = 0 then toString d.mantissa
  else
    (if d.mantissa < 0 then "-" else "") ++
      toString (d.mantissa.natAbs / 10 ^ d.scale) ++ "." ++
      padZeros (toString (d.mantissa.natAbs % 10 ^ d.scale)) d.scale

/-- JavaScript truthiness of a number: `0` (and `NaN`, which `JsDecimal`
does not represent) is falsy. -/
def jsNumTruthy (d : JsDecimal) : Bool := d.mantissa != 0

/-- JavaScript truthiness of an optional string field: `undefined` and the
empty string are falsy. -/
def truthyOpt : Option String → Bool
  | none => false
  | some s => s != ""

/-- JavaScript truthiness of an optional number field. -/
def truthyNumOpt : Option JsDecimal → Bool
  | none => false
  | some d => jsNumTruthy d

/-! ## Hash Engine (`src/utils/hash.ts`) -/

/-- Input record of `generateDepositHash`. Symbols are string literals in
the source union type and are embedded as strings. -/
structure CreateDepositHashInput where
  publicKey : String
  symbol : String
  label : String
  referenceId : String
  callbackUrl : String

/-- Input record of `generateWithdrawHash`. -/
structure WithdrawHashInput where
  symbol : String
  amount : JsDecimal
  address : String
  merchantTransactionId : String

/-- Input record of `generateVerifyStartHash`. `networkId` is a numeric
enum member, rendered in decimal like any JavaScript integer. -/
structure VerifyStartHashInput where
  symbol : String
  networkId : Nat
  address : String
  referenceId : String

/-- Input record of `generateVerifyConfirmHash`. -/
structure VerifyConfirmHashInput where
  symbol : String
  networkId : Nat
  amount : JsDecimal
  referenceId : String

/-- Function `generateDepositHash` of the source: MD5 of
`publicKey + symbol + label + referenceId + callbackUrl + secretKey`. -/
def generateDepositHash (input : CreateDepositHashInput) (secretKey : String) :
    String :=
  md5Hex (input.publicKey ++ input.symbol ++ input.label ++
    input.referenceId ++ input.callbackUrl ++ secretKey)

/-- Function `generateWithdrawHash` of the source: MD5 of
`symbol + amount.toString() + address + merchantTransactionId + secretKey`. -/
def generateWithdrawHash (input : WithdrawHashInput) (secretKey : String) :
    String :=
  md5Hex (input.symbol ++ jsNumToString input.amount ++ input.address ++
    input.merchantTransactionId ++ secretKey)

/-- Function `generateVerifyStartHash` of the source: MD5 of
`symbol + networkId.toString() + address + referenceId + secretKey`. -/
def generateVerifyStartHash (input : VerifyStartHashInput) (secretKey : String) :
    String :=
  md5Hex (input.symbol ++ toString input.networkId ++ input.address ++
    input.referenceId ++ secretKey)

/-- Function `generateVerifyConfirmHash` of the source: MD5 of
`symbol + networkId.toString() + amount.toString() + referenceId + secretKey`. -/
def generateVerifyConfirmHash (input : VerifyConfirmHashInput) (secretKey : String) :
    String :=
  md5Hex (input.symbol ++ toString input.networkId ++
    jsNumToString input.amount ++ input.referenceId ++ secretKey)

/-! ## Webhook Verifier (`src/utils/hash.ts`) -/

/-- Function `generateWebhookSignature` of the source: the expected HMAC-SHA256 signature of a
payload, hex-encoded. -/
def generateWebhookSignature (payload secretKey : String) : String :=
  hmacSha256Hex payload secretKey

/-- Function `verifyWebhookSignature` of the source: recompute the expected signature and compare
with strict string equality. -/
def verifyWebhookSignature (payload signature secretKey : String) : Bool :=
  signature == hmacSha256Hex payload secretKey

/-! ## Client configuration and key resolution (`src/client.ts`) -/

/-- The `environment` configuration union. -/
inductive Environment where
  | sandbox
  | production
deriving DecidableEq

/-- The `BASE_URLS` table of `src/client.ts`. -/
def baseUrls : Environment → String
  | .sandbox => "https://sandbox.paybin.io"
  | .production => "https://gateway.paybin.io"

/-- The optional `signature` block of `PaybinConfig`. -/
structure SignatureConfig where
  key : Option String := none
  path : Option String := none
  env : Option String := none

/-- Configuration `PaybinConfig` as accepted by the client constructor. -/
structure PaybinConfig where
  publicKey : String
  secretKey : String
  environment : Option Environment := none
  signature : Option SignatureConfig := none

/-- The base URL chosen by the `PaybinClient` constructor:
`BASE_URLS[config.environment || 'sandbox']`. -/
def constructorBaseUrl (config : PaybinConfig) : String :=
  baseUrls (config.environment.getD .sandbox)

/-- Errors thrown by key resolution and signing. -/
inductive ClientError where
  | keyLoadFailure (path : String)
  | missingEnvironmentKey (name : String)
  | signingKeyMissing
deriving DecidableEq

/-- The fixed default environment-variable name for the signing key. -/
def defaultSignatureEnvName : String := "PAYBIN_SIGNATURE_PRIVATE_KEY"

/-- Method `PaybinClient.loadSignaturePrivateKey`. The file system is modelled as
a partial map from paths to contents (`none` = `readFileSync` throws) and
the process environment as a partial map from variable names to values
(`none` = unset). Truthiness of the destructured `key`, `path`, `env`
fields and of the looked-up value follows JavaScript (`undefined` and `""`
are falsy). -/
def loadSignaturePrivateKey (fileContents : String → Option String)
    (processEnv : String → Option String) (config : PaybinConfig) :
    Except ClientError (Option String) :=
  match config.signature with
  | none => .ok none
  | some sc =>
    if truthyOpt sc.key then .ok sc.key
    else if truthyOpt sc.path then
      match fileContents (sc.path.getD "") with
      | some contents => .ok (some contents)
      | none => .error (.keyLoadFailure (sc.path.getD ""))
    else
      let envName :=
        if truthyOpt sc.env then sc.env.getD "" else defaultSignatureEnvName
      let envValue := processEnv envName
      if truthyOpt envValue then .ok envValue
      else if truthyOpt sc.env then .error (.missingEnvironmentKey envName)
      else .ok none

/-! ## Signer and request orchestration (`src/client.ts`) -/

/-- Method `PaybinClient.signPayload`. The RSA-SHA512/base64 signature primitive
of node `crypto` is external to the repository and is abstracted as the
function argument `rsaSign` (key → payload → signature); the guard and the
thrown error are the code under verification. -/
def signPayload (rsaSign : String → String → String)
    (signaturePrivateKey : Option String) (payload : String) :
    Except ClientError String :=
  if truthyOpt signaturePrivateKey then
    .ok (rsaSign (signaturePrivateKey.getD "") payload)
  else .error .signingKeyMissing

/-- The header-building step of `PaybinClient.post`: an `X-Signature`
header is attached exactly when a signing key is configured. -/
def postSignatureHeaders (rsaSign : String → String → String)
    (signaturePrivateKey : Option String) (payload : String) :
    Except ClientError (List (String × String)) :=
  if truthyOpt signaturePrivateKey then
    match signPayload rsaSign signaturePrivateKey payload with
    | .ok s => .ok [("X-Signature", s)]
    | .error e => .error e
  else .ok []

/-- The response envelope `{apiVersion, data|null, code, message}`. -/
structure PaybinResponse (T : Type) where
  apiVersion : String
  data : Option T
  code : Int
  message : String
deriving DecidableEq

/-- A `PaybinError` as constructed by `post`: envelope message and code,
raw HTTP status, and the full envelope. -/
structure PaybinErrorData (T : Type) where
  message : String
  code : Int
  httpStatus : Int
  response : Option (PaybinResponse T)
deriving DecidableEq

/-- An HTTP response as seen by `post` after the interceptors: the parsed
envelope plus the raw HTTP status. -/
structure HttpResponse (T : Type) where
  data : PaybinResponse T
  status : Int
deriving DecidableEq

/-- The envelope check of `PaybinClient.post`: a non-200 application code
is converted into a thrown `PaybinError`, otherwise the envelope is
returned. -/
def postCheckEnvelope {T : Type} (resp : HttpResponse T) :
    Except (PaybinErrorData T) (PaybinResponse T) :=
  if resp.data.code != 200 then
    .error ⟨resp.data.message, resp.data.code, resp.status, some resp.data⟩
  else .ok resp.data

/-! ## `Paybin.getEnvironment` (`src/paybin.ts`) -/

/-- Method `Paybin.getEnvironment`: derived from the public key prefix alone. -/
def getEnvironment (config : PaybinConfig) : Environment :=
  if config.publicKey.startsWith "sandbox_" then .sandbox else .production

/-! ## Request builders (`src/api/deposit.ts`, `src/api/withdraw.ts`,
`src/api/balance.ts`) -/

/-- A value in an outgoing JSON request body. -/
inductive FieldVal where
  | vStr (s : String)
  | vNum (d : JsDecimal)
  | vNat (n : Nat)
deriving DecidableEq

/-- A request body as the ordered list of its fields. -/
abbrev Request := List (String × FieldVal)

/-- Whether a request body contains a field of the given name. -/
def hasField (req : Request) (name : String) : Bool :=
  req.any (fun f => f.1 == name)

/-- Caller parameters of `deposit.createAddress`. -/
structure CreateAddressParams where
  symbol : String
  label : String
  referenceId : String
  callbackUrl : String
  amount : Option JsDecimal := none
  currency : Option String := none
  redirectUrl : Option String := none
  cancelUrl : Option String := none

/-- The request body built by `DepositAPI.createAddress`: the five fixed
fields plus the hash, then each optional field spread in only when its
value is truthy (`...(params.amount && { Amount: params.amount })`). -/
def createDepositAddressRequest (publicKey secretKey : String)
    (p : CreateAddressParams) : Request :=
  [("PublicKey", .vStr publicKey), ("Symbol", .vStr p.symbol),
   ("Label", .vStr p.label), ("ReferenceId", .vStr p.referenceId),
   ("CallbackUrl", .vStr p.callbackUrl),
   ("Hash", .vStr (generateDepositHash
     ⟨publicKey, p.symbol, p.label, p.referenceId, p.callbackUrl⟩ secretKey))] ++
  (match p.amount with
   | some a => if jsNumTruthy a then [("Amount", .vNum a)] else []
   | none => []) ++
  (match p.currency with
   | some c => if c != "" then [("Currency", .vStr c)] else []
   | none => []) ++
  (match p.redirectUrl with
   | some u => if u != "" then [("RedirectUrl", .vStr u)] else []
   | none => []) ++
  (match p.cancelUrl with
   | some u => if u != "" then [("CancelUrl", .vStr u)] else []
   | none => [])

/-- Caller parameters of `deposit.getAddress`. -/
structure GetAddressParams where
  memberId : String
  symbol : String
  label : Option String := none
  networkId : Option Nat := none

/-- The request body built by `DepositAPI.getAddress`. -/
def getDepositAddressRequest (publicKey : String) (p : GetAddressParams) :
    Request :=
  [("PublicKey", .vStr publicKey), ("MemberId", .vStr p.memberId),
   ("Symbol", .vStr p.symbol)] ++
  (match p.label with
   | some l => if l != "" then [("Label", .vStr l)] else []
   | none => []) ++
  (match p.networkId with
   | some n => if n != 0 then [("NetworkId", .vNat n)] else []
   | none => [])

/-- Caller parameters of `withdraw.add`. -/
structure WithdrawAddParams where
  referenceId : String
  amount : JsDecimal
  symbol : String
  networkId : Nat
  address : String
  label : String
  merchantTransactionId : String
  tfaCode : String
  email : String

/-- The request body built by `WithdrawAPI.add`. -/
def withdrawAddRequest (publicKey secretKey : String) (p : WithdrawAddParams) :
    Request :=
  [("PublicKey", .vStr publicKey), ("ReferenceId", .vStr p.referenceId),
   ("Amount", .vNum p.amount), ("Symbol", .vStr p.symbol),
   ("NetworkId", .vNat p.networkId), ("Address", .vStr p.address),
   ("Label", .vStr p.label),
   ("MerchantTransactionId", .vStr p.merchantTransactionId),
   ("Hash", .vStr (generateWithdrawHash
     ⟨p.symbol, p.amount, p.address, p.merchantTransactionId⟩ secretKey)),
   ("TfaCode", .vStr p.tfaCode), ("Email", .vStr p.email)]

/-- Caller parameters of `withdraw.verifyStart`. -/
structure VerifyStartParams where
  referenceId : String
  symbol : String
  networkId : Nat
  address : String
  label : String

/-- The request body built by `WithdrawAPI.verifyStart`. -/
def verifyStartRequest (publicKey secretKey : String) (p : VerifyStartParams) :
    Request :=
  [("PublicKey", .vStr publicKey), ("ReferenceId", .vStr p.referenceId),
   ("Symbol", .vStr p.symbol), ("NetworkId", .vNat p.networkId),
   ("Address", .vStr p.address), ("Label", .vStr p.label),
   ("Hash", .vStr (generateVerifyStartHash
     ⟨p.symbol, p.networkId, p.address, p.referenceId⟩ secretKey))]

/-- Caller parameters of `withdraw.verifyConfirmAmount`. -/
structure VerifyConfirmParams where
  referenceId : String
  symbol : String
  networkId : Nat
  amount : JsDecimal

/-- The request body built by `WithdrawAPI.verifyConfirmAmount`. -/
def verifyConfirmAmountRequest (publicKey secretKey : String)
    (p : VerifyConfirmParams) : Request :=
  [("PublicKey", .vStr publicKey), ("ReferenceId", .vStr p.referenceId),
   ("Symbol", .vStr p.symbol), ("NetworkId", .vNat p.networkId),
   ("Amount", .vNum p.amount),
   ("Hash", .vStr (generateVerifyConfirmHash
     ⟨p.symbol, p.networkId, p.amount, p.referenceId⟩ secretKey))]

/-- The request body built by `BalanceAPI.get`. -/
def getBalanceRequest (publicKey : String) : Request :=
  [("PublicKey", .vStr publicKey)]

/-- Whether every field of a request holding the secret key as its value
(if any) is the `Hash` field: the secret key never appears in a request
body outside the digest. -/
def secretOnlyInHash (req : Request) (secretKey : String) : Bool :=
  req.all (fun f => !(f.2 == FieldVal.vStr secretKey) || f.1 == "Hash")

/-! ## Helper lemmas -/

/-- Function `leBytes` produces exactly `k` bytes. -/
theorem leBytes_length (k n : Nat) : (leBytes k n).length = k := by
  simp [leBytes]

/-- Every entry of `leBytes` is a byte value. -/
theorem mem_leBytes_lt {k n b : Nat} (hb : b ∈ leBytes k n) : b < 256 := by
  simp only [leBytes, List.mem_map, List.mem_range] at hb
  obtain ⟨i, _, rfl⟩ := hb
  exact Nat.mod_lt _ (by norm_num)

/-- An MD5 digest consists of 16 bytes. -/
theorem md5bytes_length (m : List Nat) : (md5bytes m).length = 16 := by
  simp [md5bytes, leBytes_length]

/-- Every entry of an MD5 digest is a byte value. -/
theorem mem_md5bytes_lt {m : List Nat} {b : Nat} (hb : b ∈ md5bytes m) :
    b < 256 := by
  simp only [md5bytes, List.mem_append] at hb
  rcases hb with ((h | h) | h) | h <;> exact mem_leBytes_lt h

/-- Hex digits of values below 16 are lowercase hexadecimal characters. -/
theorem hexDigit_mem : ∀ n < 16, hexDigit n ∈ "0123456789abcdef".data := by
  decide

/-- The hex rendering of a byte list has two characters per byte. -/
theorem flatMap_hexByte_length (l : List Nat) :
    (l.flatMap hexByte).length = 2 * l.length := by
  induction l with
  | nil => rfl
  | cons b bs ih => simp [List.flatMap_cons, hexByte, ih]; omega

/-- An MD5 hex digest has 32 characters. -/
theorem md5Hex_length (s : String) : (md5Hex s).length = 32 := by
  show ((md5bytes (utf8Bytes s)).flatMap hexByte).length = 32
  rw [flatMap_hexByte_length, md5bytes_length]

/-- Every character of an MD5 hex digest is a lowercase hexadecimal
digit. -/
theorem md5Hex_chars (s : String) :
    ∀ c ∈ (md5Hex s).data, c ∈ "0123456789abcdef".data := by
  intro c hc
  have hd : (md5Hex s).data = (md5bytes (utf8Bytes s)).flatMap hexByte := rfl
  rw [hd, List.mem_flatMap] at hc
  obtain ⟨b, _, hcb⟩ := hc
  simp only [hexByte, List.mem_cons, List.not_mem_nil, or_false] at hcb
  rcases hcb with rfl | rfl
  · exact hexDigit_mem _ (Nat.mod_lt _ (by norm_num))
  · exact hexDigit_mem _ (Nat.mod_lt _ (by norm_num))

/-- A deposit hash is 32 characters long. -/
theorem generateDepositHash_length (i : CreateDepositHashInput) (k : String) :
    (generateDepositHash i k).length = 32 := md5Hex_length _

/-- A withdraw hash is 32 characters long. -/
theorem generateWithdrawHash_length (i : WithdrawHashInput) (k : String) :
    (generateWithdrawHash i k).length = 32 := md5Hex_length _

/-- A verify-start hash is 32 characters long. -/
theorem generateVerifyStartHash_length (i : VerifyStartHashInput) (k : String) :
    (generateVerifyStartHash i k).length = 32 := md5Hex_length _

/-- A verify-confirm hash is 32 characters long. -/
theorem generateVerifyConfirmHash_length (i : VerifyConfirmHashInput) (k : String) :
    (generateVerifyConfirmHash i k).length = 32 := md5Hex_length _

/-! ## Claim theorems -/

/-- C1: `generateDepositHash` is deterministic and equals the MD5 digest,
rendered as a 32-character lowercase hexadecimal string, of the
separator-free concatenation `publicKey + symbol + label + referenceId +
callbackUrl + secretKey`; on the golden record
`{publicKey:"pub1", symbol:"ETH", label:"L", referenceId:"R1",
callbackUrl:"https://x/y"}` with secret `"secret1"` it equals the digest
of `"pub1ETHLR1https://x/ysecret1"`. -/
theorem generateDepositHash_spec :
    ∀ (input : CreateDepositHashInput) (secretKey : String),
      generateDepositHash input secretKey =
        md5Hex (input.publicKey ++ input.symbol ++ input.label ++
          input.referenceId ++ input.callbackUrl ++ secretKey) ∧
      (generateDepositHash input secretKey).length = 32 ∧
      (∀ c ∈ (generateDepositHash input secretKey).data,
        c ∈ "0123456789abcdef".data) ∧
      generateDepositHash ⟨"pub1", "ETH", "L", "R1", "https://x/y"⟩ "secret1" =
        md5Hex "pub1ETHLR1https://x/ysecret1" := by
  intro input secretKey
  exact ⟨rfl, md5Hex_length _, md5Hex_chars _, rfl⟩

/-- C2: a webhook signature generated with the same payload and secret
always verifies (round-trip law). -/
theorem verifyWebhookSignature_roundTrip :
    ∀ (payload secretKey : String),
      verifyWebhookSignature payload
        (generateWebhookSignature payload secretKey) secretKey = true := by
  intro payload secretKey
  simp [verifyWebhookSignature, generateWebhookSignature]

/-- C3: key resolution is asymmetric on the environment-variable path:
with key and path absent, an explicitly named but unset environment
variable fails with `missingEnvironmentKey`, while an unnamed
configuration with the default variable unset resolves to absent without
error. -/
theorem loadSignaturePrivateKey_env_asymmetry
    (fileContents processEnv : String → Option String)
    (cfgNamed cfgDefault : PaybinConfig) (scN scD : SignatureConfig)
    (name : String)
    (hsigN : cfgNamed.signature = some scN)
    (hkN : truthyOpt scN.key = false) (hpN : truthyOpt scN.path = false)
    (heN : scN.env = some name) (hname : name ≠ "")
    (hunset : processEnv name = none)
    (hsigD : cfgDefault.signature = some scD)
    (hkD : truthyOpt scD.key = false) (hpD : truthyOpt scD.path = false)
    (heD : scD.env = none)
    (hdef : processEnv defaultSignatureEnvName = none) :
    loadSignaturePrivateKey fileContents processEnv cfgNamed =
      .error (.missingEnvironmentKey name) ∧
    loadSignaturePrivateKey fileContents processEnv cfgDefault = .ok none := by
  constructor
  · simp only [loadSignaturePrivateKey, hsigN, hkN, hpN, heN, hunset]
    simp [truthyOpt, hname]
    rw [hunset]
  · simp only [loadSignaturePrivateKey, hsigD, hkD, hpD, heD, hdef]
    simp [truthyOpt]
    rw [hdef]
    simp

/-- Witness for C3 at a concrete configuration pair. -/
theorem loadSignaturePrivateKey_env_asymmetry_witness :
    loadSignaturePrivateKey (fun _ => none) (fun _ => none)
      ⟨"pk", "sk", none, some ⟨none, none, some "MY_SIGNING_KEY"⟩⟩ =
      .error (.missingEnvironmentKey "MY_SIGNING_KEY") ∧
    loadSignaturePrivateKey (fun _ => none) (fun _ => none)
      ⟨"pk", "sk", none, some ⟨none, none, none⟩⟩ = .ok none :=
  loadSignaturePrivateKey_env_asymmetry (fun _ => none) (fun _ => none)
    ⟨"pk", "sk", none, some ⟨none, none, some "MY_SIGNING_KEY"⟩⟩
    ⟨"pk", "sk", none, some ⟨none, none, none⟩⟩
    ⟨none, none, some "MY_SIGNING_KEY"⟩ ⟨none, none, none⟩ "MY_SIGNING_KEY"
    rfl rfl rfl rfl (by decide) rfl rfl rfl rfl rfl rfl

/-- C4: `post` returns the response envelope exactly when the envelope
code is 200; any other envelope code (even with HTTP status 200) is
converted into a thrown `PaybinError` carrying the envelope code and
message and the raw HTTP status. -/
theorem postCheckEnvelope_spec :
    ∀ (T : Type) (resp : HttpResponse T),
      (postCheckEnvelope resp = .ok resp.data ↔ resp.data.code = 200) ∧
      (postCheckEnvelope resp =
          .error ⟨resp.data.message, resp.data.code, resp.status,
            some resp.data⟩ ↔
        resp.data.code ≠ 200) := by
  intro T resp
  unfold postCheckEnvelope
  by_cases h : resp.data.code = 200
  · have hb : (resp.data.code != 200) = false := by simp [h]
    simp [hb, h]
  · have hb : (resp.data.code != 200) = true := by simpa [bne_iff_ne] using h
    simp [hb, h]

/-- C5: with no resolved signing key, `post` builds its headers without
invoking the signer (no `X-Signature` header and no failure), while
calling `signPayload` directly with no key fails with the
signing-key-missing error. -/
theorem signPayload_absent_key_spec :
    ∀ (rsaSign : String → String → String) (payload : String),
      postSignatureHeaders rsaSign none payload = .ok [] ∧
      signPayload rsaSign none payload = .error .signingKeyMissing := by
  intro rsaSign payload
  exact ⟨rfl, rfl⟩

/-- C7: an inline signing key is returned verbatim, whatever the file and
environment configuration. -/
theorem loadSignaturePrivateKey_inline
    (fileContents processEnv : String → Option String)
    (config : PaybinConfig) (sc : SignatureConfig) (k : String)
    (hsig : config.signature = some sc) (hk : sc.key = some k)
    (hne : k ≠ "") :
    loadSignaturePrivateKey fileContents processEnv config = .ok (some k) := by
  simp [loadSignaturePrivateKey, hsig, hk, truthyOpt, hne]

/-- Witness for C7: the inline key wins over a readable file path and a
set environment variable. -/
theorem loadSignaturePrivateKey_inline_witness :
    loadSignaturePrivateKey (fun _ => some "FILE_KEY") (fun _ => some "ENV_KEY")
      ⟨"pk", "sk", none, some ⟨some "INLINE_KEY", some "/tmp/k.pem", some "VAR"⟩⟩ =
      .ok (some "INLINE_KEY") :=
  loadSignaturePrivateKey_inline (fun _ => some "FILE_KEY")
    (fun _ => some "ENV_KEY")
    ⟨"pk", "sk", none, some ⟨some "INLINE_KEY", some "/tmp/k.pem", some "VAR"⟩⟩
    ⟨some "INLINE_KEY", some "/tmp/k.pem", some "VAR"⟩ "INLINE_KEY"
    rfl rfl (by decide)

/-- C6: `generateWithdrawHash` renders the numeric amount in plain decimal
notation with no fixed-precision padding before the separator-free
concatenation; for `{symbol:"ETH", amount:0.1, address:"0xabc",
merchantTransactionId:"W-1"}` with secret `"s"` the result is the MD5
digest of `"ETH0.10xabcW-1s"`. -/
theorem generateWithdrawHash_decimal_spec :
    (∀ (input : WithdrawHashInput) (secretKey : String),
      generateWithdrawHash input secretKey =
        md5Hex (input.symbol ++ jsNumToString input.amount ++ input.address ++
          input.merchantTransactionId ++ secretKey)) ∧
    jsNumToString ⟨1, 1⟩ = "0.1" ∧
    generateWithdrawHash ⟨"ETH", ⟨1, 1⟩, "0xabc", "W-1"⟩ "s" =
      md5Hex "ETH0.10xabcW-1s" := by
  refine ⟨fun i k => rfl, by decide, ?_⟩
  show md5Hex ("ETH" ++ jsNumToString ⟨1, 1⟩ ++ "0xabc" ++ "W-1" ++ "s") =
    md5Hex "ETH0.10xabcW-1s"
  exact congrArg md5Hex (by decide)

/-- C9 counterexample: a provided amount of `0` is JavaScript-falsy, so
`...(params.amount && { Amount: params.amount })` omits the `Amount` key
even though the caller provided the field. -/
theorem createAddress_amount_zero_omitted :
    hasField (createDepositAddressRequest "pk" "sk"
      ⟨"ETH", "L", "R1", "https://cb", some ⟨0, 0⟩, none, none, none⟩)
      "Amount" = false := by
  rfl

/-- C9 amended: each optional field of `deposit.createAddress` is present
as a key exactly when the caller provided it with a JavaScript-truthy
value (a nonzero amount, a nonempty string); falsy provided values are
omitted like absent ones, and no null-valued key is ever emitted. -/
theorem createAddress_optional_fields (publicKey secretKey : String)
    (p : CreateAddressParams) :
    hasField (createDepositAddressRequest publicKey secretKey p) "Amount" =
      truthyNumOpt p.amount ∧
    hasField (createDepositAddressRequest publicKey secretKey p) "Currency" =
      truthyOpt p.currency ∧
    hasField (createDepositAddressRequest publicKey secretKey p) "RedirectUrl" =
      truthyOpt p.redirectUrl ∧
    hasField (createDepositAddressRequest publicKey secretKey p) "CancelUrl" =
      truthyOpt p.cancelUrl := by
  rcases p with ⟨sym, lab, ref, cb, am, cur, ru, cu⟩
  refine ⟨?_, ?_, ?_, ?_⟩ <;>
    cases am <;> cases cur <;> cases ru <;> cases cu <;>
      simp [createDepositAddressRequest, hasField, truthyNumOpt, truthyOpt,
        List.any_append] <;>
      split_ifs <;> simp_all

/-- C10: `Paybin.getEnvironment` answers `sandbox` exactly when the public
key starts with `"sandbox_"`, ignores the configured environment, and can
therefore disagree with the environment (and base URL) the client was
constructed with. -/
theorem getEnvironment_spec :
    ∀ (config : PaybinConfig),
      (getEnvironment config = .sandbox ↔
        config.publicKey.startsWith "sandbox_" = true) ∧
      (∀ e : Option Environment,
        getEnvironment { config with environment := e } =
          getEnvironment config) ∧
      getEnvironment ⟨"pk", "sk", some .sandbox, none⟩ = .production ∧
      constructorBaseUrl ⟨"pk", "sk", some .sandbox, none⟩ =
        baseUrls .sandbox := by
  intro config
  refine ⟨?_, fun e => rfl, by decide, rfl⟩
  unfold getEnvironment
  by_cases h : config.publicKey.startsWith "sandbox_" = true
  · simp [h]
  · simp [h]

/-- C8: across all six request builders, no field of the outgoing request
body is set to the secret key itself: provided the secret key does not
coincide with any caller-supplied field value (or the public key), the
only field that could carry it is the MD5 `Hash` field into which it is
folded. -/
theorem secretKey_only_in_hash
    (publicKey secretKey : String) (pc : CreateAddressParams)
    (pg : GetAddressParams) (pw : WithdrawAddParams) (pv : VerifyStartParams)
    (pa : VerifyConfirmParams)
    (hsk : ∀ x ∈ ([publicKey, pc.symbol, pc.label, pc.referenceId,
      pc.callbackUrl, pc.currency.getD "", pc.redirectUrl.getD "",
      pc.cancelUrl.getD "", pg.memberId, pg.symbol, pg.label.getD "",
      pw.referenceId, pw.symbol, pw.address, pw.label,
      pw.merchantTransactionId, pw.tfaCode, pw.email, pv.referenceId,
      pv.symbol, pv.address, pv.label, pa.referenceId, pa.symbol] :
        List String), x ≠ secretKey) :
    secretOnlyInHash (createDepositAddressRequest publicKey secretKey pc)
      secretKey = true ∧
    secretOnlyInHash (getDepositAddressRequest publicKey pg) secretKey = true ∧
    secretOnlyInHash (withdrawAddRequest publicKey secretKey pw) secretKey =
      true ∧
    secretOnlyInHash (verifyStartRequest publicKey secretKey pv) secretKey =
      true ∧
    secretOnlyInHash (verifyConfirmAmountRequest publicKey secretKey pa)
      secretKey = true ∧
    secretOnlyInHash (getBalanceRequest publicKey) secretKey = true := by
  simp only [List.mem_cons, List.not_mem_nil, or_false, forall_eq_or_imp,
    forall_eq] at hsk
  obtain ⟨h1, h2, h3, h4, h5, h6, h7, h8, h9, h10, h11, h12, h13, h14, h15,
    h16, h17, h18, h19, h20, h21, h22, h23, h24⟩ := hsk
  refine ⟨?_, ?_, ?_, ?_, ?_, ?_⟩
  · rcases pc with ⟨sym, lab, ref, cb, am, cur, ru, cu⟩
    cases am <;> cases cur <;> cases ru <;> cases cu <;>
      simp_all [createDepositAddressRequest, secretOnlyInHash,
        List.all_append]
  · rcases pg with ⟨mem, sym, lab, ni⟩
    cases lab <;> cases ni <;>
      simp_all [getDepositAddressRequest, secretOnlyInHash, List.all_append]
  · simp [withdrawAddRequest, secretOnlyInHash, h1, h12, h13, h14, h15, h16,
      h17, h18]
  · simp [verifyStartRequest, secretOnlyInHash, h1, h19, h20, h21, h22]
  · simp [verifyConfirmAmountRequest, secretOnlyInHash, h1, h23, h24]
  · simp [getBalanceRequest, secretOnlyInHash, h1]

/-- Witness for C8 at concrete parameters. -/
theorem secretKey_only_in_hash_witness :
    secretOnlyInHash (createDepositAddressRequest "pk" "sk"
      ⟨"ETH", "L", "R1", "https://cb", some ⟨1, 1⟩, some "USD", none, none⟩)
      "sk" = true ∧
    secretOnlyInHash (getDepositAddressRequest "pk"
      ⟨"M1", "ETH", some "L2", some 3⟩) "sk" = true ∧
    secretOnlyInHash (withdrawAddRequest "pk" "sk"
      ⟨"R2", ⟨1, 1⟩, "ETH", 3, "0xabc", "W", "W-1", "123456", "a@b.c"⟩)
      "sk" = true ∧
    secretOnlyInHash (verifyStartRequest "pk" "sk"
      ⟨"R3", "ETH", 3, "0xabc", "V"⟩) "sk" = true ∧
    secretOnlyInHash (verifyConfirmAmountRequest "pk" "sk"
      ⟨"R4", "ETH", 3, ⟨4912, 8⟩⟩) "sk" = true ∧
    secretOnlyInHash (getBalanceRequest "pk") "sk" = true :=
  secretKey_only_in_hash "pk" "sk"
    ⟨"ETH", "L", "R1", "https://cb", some ⟨1, 1⟩, some "USD", none, none⟩
    ⟨"M1", "ETH", some "L2", some 3⟩
    ⟨"R2", ⟨1, 1⟩, "ETH", 3, "0xabc", "W", "W-1", "123456", "a@b.c"⟩
    ⟨"R3", "ETH", 3, "0xabc", "V"⟩
    ⟨"R4", "ETH", 3, ⟨4912, 8⟩⟩
    (by decide)

/-! ## Test vectors

Kernel-checked vectors tying the embedded digest functions to the
published MD5 and HMAC-SHA256 values. -/

set_option maxRecDepth 40000 in
/-- RFC 1321 test vector: MD5 of `"abc"`. -/
theorem md5Hex_abc : md5Hex "abc" = "900150983cd24fb0d6963f7d28e17f72" := by
  decide

set_option maxRecDepth 40000 in
/-- RFC 1321 test vector: MD5 of the empty string. -/
theorem md5Hex_empty : md5Hex "" = "d41d8cd98f00b204e9800998ecf8427e" := by
  decide

end Paybin
